import Mathlib

/-!
Verification model of the animated sparkline rendering engine
(`src/components/chapters/timeline/SparklineCanvas.tsx`).

The engine's numeric core is embedded shallowly:
* JavaScript numbers are modelled by `JSNumber` (a rational, NaN, or a signed
  infinity); code paths that are guarded by `Number.isFinite` work on plain
  rationals afterwards.
* `buildModel` is the Model Builder (source lines 69–114), with the canvas
  text-measurement context abstracted as a function `measureText : String → ℚ`.
* The color regexes `/rgba?\(...\)/` and `/239,\s*68,\s*68/` are implemented
  as deterministic scanners over the character list; for these concrete
  patterns greedy scanning agrees with the backtracking regex engine
  (digit/space/punctuation classes are pairwise disjoint at every junction,
  and the fractional alpha group admits the case split spelled out below).
* The hover projection (`onMouseMove`, lines 244–256) and the tip-point
  computation of `draw` (lines 130–133) are embedded as functions.
* The requestAnimationFrame / ResizeObserver choreography (lines 181–237) is
  embedded as an explicit event-loop state machine `RafState`.
-/

/-- A JavaScript `number` as far as the engine observes it: finite (modelled
exactly by a rational), `NaN`, or one of the two infinities. -/
inductive JSNumber where
  | fin (q : ℚ)
  | nan
  | posInf
  | negInf
deriving DecidableEq

/-- `Number.isFinite`. -/
def JSNumber.isFinite : JSNumber → Bool
  | .fin _ => true
  | _ => false

/-- `Math.min` on two numbers: `NaN` is absorbing, otherwise the usual order
with `-∞ < finite < +∞`. -/
def jsMin : JSNumber → JSNumber → JSNumber
  | .nan, _ => .nan
  | _, .nan => .nan
  | .negInf, _ => .negInf
  | _, .negInf => .negInf
  | .posInf, b => b
  | a, .posInf => a
  | .fin a, .fin b => .fin (min a b)

/-- `Math.max` on two numbers: `NaN` is absorbing, otherwise the usual order
with `-∞ < finite < +∞`. -/
def jsMax : JSNumber → JSNumber → JSNumber
  | .nan, _ => .nan
  | _, .nan => .nan
  | .posInf, _ => .posInf
  | _, .posInf => .posInf
  | .negInf, b => b
  | a, .negInf => a
  | .fin a, .fin b => .fin (max a b)

/-- `Math.round` on a finite number: round half toward positive infinity. -/
def jsRound (q : ℚ) : ℤ := ⌊q + 1/2⌋

/-- JavaScript `\s` on the ASCII range (space, tab, line feed, vertical tab,
form feed, carriage return; the Unicode space classes never occur in the
engine's inputs of interest). -/
def jsSpace (c : Char) : Bool :=
  c = ' ' || c = '\t' || c = '\n' || c = '\x0b' || c = '\x0c' || c = '\r'

/-- Drop a maximal run of `\s*`. -/
def skipWs : List Char → List Char
  | [] => []
  | c :: cs => if jsSpace c then skipWs cs else c :: cs

/-- Split off a maximal run of `\d*` (greedy digits). -/
def takeDigits : List Char → List Char × List Char
  | [] => ([], [])
  | c :: cs =>
      if c.isDigit then
        let p := takeDigits cs
        (c :: p.1, p.2)
      else ([], c :: cs)

/-- Value of a digit run, as `parseInt` reads it (base 10). -/
def digitsVal (ds : List Char) : ℕ :=
  ds.foldl (fun a c => a * 10 + (c.toNat - 48)) 0

/-- Expect one literal character. -/
def expectChar (c : Char) : List Char → Option (List Char)
  | [] => none
  | d :: cs => if d = c then some cs else none

/-- Match one capture group `(\s*\d+\s*)` and return the value `parseInt`
extracts from the captured text (leading whitespace skipped, digits read,
trailing whitespace ignored). -/
def numGroup (cs : List Char) : Option (ℕ × List Char) :=
  let cs1 := skipWs cs
  let p := takeDigits cs1
  if p.1.isEmpty then none else some (digitsVal p.1, skipWs p.2)

/-- Match the alpha group `(\s*\d*\.?\d+\s*)`.  The regex accepts exactly
`\s*` then either `\d+` or `\d* '.' \d+` then `\s*`; a trailing bare dot
(`"5."`) is rejected on every backtracking path, which this case split
reproduces. -/
def alphaGroup (cs : List Char) : Option (List Char) :=
  let cs1 := skipWs cs
  let p := takeDigits cs1
  match p.2 with
  | '.' :: cs3 =>
      let p2 := takeDigits cs3
      if p2.1.isEmpty then none else some (skipWs p2.2)
  | rest => if p.1.isEmpty then none else some (skipWs rest)

/-- Attempt `/rgba?\((\s*\d+\s*),(\s*\d+\s*),(\s*\d+\s*)(?:,(\s*\d*\.?\d+\s*))?\)/`
anchored at the current position; on success return the three
`parseInt`-extracted channel values (the alpha capture is never read by the
engine). -/
def tryRgbaAt (cs : List Char) : Option (ℕ × ℕ × ℕ) :=
  match cs with
  | 'r' :: 'g' :: 'b' :: rest =>
      let afterParen : Option (List Char) :=
        match rest with
        | 'a' :: r => expectChar '(' r
        | r => expectChar '(' r
      match afterParen with
      | none => none
      | some cs0 =>
          match numGroup cs0 with
          | none => none
          | some (r, cs1) =>
              match expectChar ',' cs1 with
              | none => none
              | some cs2 =>
                  match numGroup cs2 with
                  | none => none
                  | some (g, cs3) =>
                      match expectChar ',' cs3 with
                      | none => none
                      | some cs4 =>
                          match numGroup cs4 with
                          | none => none
                          | some (b, cs5) =>
                              match cs5 with
                              | ')' :: _ => some (r, g, b)
                              | ',' :: cs6 =>
                                  match alphaGroup cs6 with
                                  | some (')' :: _) => some (r, g, b)
                                  | _ => none
                              | _ => none
  | _ => none

/-- `RegExp.exec` of the rgba pattern: leftmost match over the whole string. -/
def rgbaExec : List Char → Option (ℕ × ℕ × ℕ)
  | [] => none
  | c :: cs =>
      match tryRgbaAt (c :: cs) with
      | some t => some t
      | none => rgbaExec cs

/-- Attempt `/239,\s*68,\s*68/` anchored at the current position. -/
def tryRedAt (cs : List Char) : Bool :=
  match cs with
  | '2' :: '3' :: '9' :: ',' :: rest =>
      match skipWs rest with
      | '6' :: '8' :: ',' :: rest2 =>
          match skipWs rest2 with
          | '6' :: '8' :: _ => true
          | _ => false
      | _ => false
  | _ => false

/-- `RegExp.test` of the red-signature pattern `/239,\s*68,\s*68/`:
substring search anywhere in the string. -/
def redTest : List Char → Bool
  | [] => false
  | c :: cs => tryRedAt (c :: cs) || redTest cs

/-- An `rgba(r,g,b,a)` color expression as the template literals on source
lines 106–107 assemble it (the string rendering itself carries no further
information the engine reads back). -/
structure RGBA where
  r : ℕ
  g : ℕ
  b : ℕ
  a : JSNumber
deriving DecidableEq

/-- The component's configuration props, as the engine reads them.  Optional
numeric props are `Option JSNumber` (`none` = absent/`undefined`); `compact`
is used only for its truthiness. -/
structure SparklineProps where
  percent : Option JSNumber
  color : String
  compact : Bool
  durationMs : Option JSNumber
  lineWidthOverride : Option JSNumber
  glowRadiusOverride : Option JSNumber
  areaAlphaOverride : Option JSNumber

/-- Source line 70: `typeof percent === 'number' && Number.isFinite(percent)
? percent : 100`. -/
def rawPercentOf : Option JSNumber → ℚ
  | some (JSNumber.fin q) => q
  | _ => 100

/-- Source line 111: `typeof durationMs === 'number' &&
Number.isFinite(durationMs) ? Math.max(200, Math.min(4000,
Math.floor(durationMs))) : 980`. -/
def durationOf : Option JSNumber → ℚ
  | some (JSNumber.fin q) => max 200 (min 4000 ((⌊q⌋ : ℤ) : ℚ))
  | _ => 980

/-- The geometry/style snapshot returned by `buildModel` (source lines
47–67).  Note that there is no `pValue` field: the builder never stores the
clamped metric itself. -/
structure Model where
  width : ℚ
  height : ℚ
  padTop : ℚ
  padBottom : ℚ
  padX : ℚ
  strokeColor : String
  tipGlowColor : String
  label : String
  labelWidth : ℚ
  startX : ℚ
  startY : ℚ
  endX : ℚ
  yFinal : ℚ
  areaStartColor : RGBA
  areaEndColor : RGBA
  lineWidth : JSNumber
  tipRadius : ℚ
  glowRadius : JSNumber
  duration : ℚ
deriving DecidableEq

/-- The Model Builder (source lines 69–114).  `measureText` stands for the
canvas context's `measureText(label).width`; `cssW`/`cssH` are the logical
surface size. -/
def buildModel (props : SparklineProps) (measureText : String → ℚ)
    (cssW cssH : ℚ) : Model :=
  let pRaw := rawPercentOf props.percent
  let p := max 0 (min 1000 pRaw)
  let stroke := props.color
  let glow := if redTest props.color.data then "rgba(239,68,68,0.9)"
              else "rgba(16,185,129,0.9)"
  let padTop : ℚ := if props.compact then 6 else 10
  let padBottom : ℚ := if props.compact then 14 else 18
  let padX : ℚ := if props.compact then 8 else 10
  let label := (if p ≥ 0 then "+" else "") ++ toString (jsRound p) ++ "%"
  let labelWidth := measureText label
  let rightGutterBase : ℚ := if props.compact then 30 else 36
  let rightGutter := max rightGutterBase (labelWidth + 18)
  let leftAxis : ℚ := (if props.compact then 16 else 20) + 8
  let startX := padX + leftAxis
  let endX := max startX (cssW - padX - rightGutter)
  let Hdraw := max 1 (cssH - padTop - padBottom)
  let normFinal := max 0 (min 1 (p / 1000))
  let startY := cssH - padBottom - 1
  let yFinal := padTop + (1 - normFinal) * Hdraw
  let rgbaMatch := rgbaExec stroke.data
  let baseR := match rgbaMatch with | some t => t.1 | none => 16
  let baseG := match rgbaMatch with | some t => t.2.1 | none => 185
  let baseB := match rgbaMatch with | some t => t.2.2 | none => 129
  let areaStartAlpha : JSNumber :=
    match props.areaAlphaOverride with
    | some a => jsMax (.fin 0) (jsMin (.fin 1) a)
    | none => .fin (if props.compact then 0.08 else 0.12)
  let areaStartColor : RGBA := ⟨baseR, baseG, baseB, areaStartAlpha⟩
  let areaEndColor : RGBA := ⟨baseR, baseG, baseB, .fin 0⟩
  let lineWidth : JSNumber :=
    match props.lineWidthOverride with
    | some n => n
    | none => .fin (if props.compact then 1.2 else 1.4)
  let tipRadius : ℚ := if props.compact then 1.9 else 2.4
  let glowRadius : JSNumber :=
    match props.glowRadiusOverride with
    | some n => n
    | none => .fin (if props.compact then 8 else 10)
  let duration := durationOf props.durationMs
  { width := cssW, height := cssH, padTop := padTop, padBottom := padBottom,
    padX := padX, strokeColor := stroke, tipGlowColor := glow, label := label,
    labelWidth := labelWidth, startX := startX, startY := startY,
    endX := endX, yFinal := yFinal, areaStartColor := areaStartColor,
    areaEndColor := areaEndColor, lineWidth := lineWidth,
    tipRadius := tipRadius, glowRadius := glowRadius, duration := duration }

/-- Reading the property `pValue` on a built model (source line 253 reads
`m.pValue` through an `any`-typed ref): the `Model` returned by `buildModel`
has no such field, so the property access yields `undefined`. -/
def Model.pValueProp (_ : Model) : Option ℚ := none

/-- Source line 250: `Math.max(m.startX, Math.min(m.endX, localX))`. -/
def hoverClampedX (m : Model) (localX : ℚ) : ℚ :=
  max m.startX (min m.endX localX)

/-- Source line 251: the projection fraction along the line. -/
def hoverFraction (m : Model) (localX : ℚ) : ℚ :=
  if m.endX = m.startX then 0
  else (hoverClampedX m localX - m.startX) / (m.endX - m.startX)

/-- Source line 252: y position on the final line under the pointer. -/
def hoverY (m : Model) (localX : ℚ) : ℚ :=
  m.startY + (m.yFinal - m.startY) * hoverFraction m localX

/-- Source lines 253–254: `base = typeof m.pValue === 'number' ? m.pValue :
0; pct = Math.max(0, Math.min(1000, base * ratio))`. -/
def hoverPct (m : Model) (localX : ℚ) : ℚ :=
  let base : ℚ := match m.pValueProp with | some v => v | none => 0
  max 0 (min 1000 (base * hoverFraction m localX))

/-- Source line 131 inside `draw`: `0.5 * (1 - Math.cos(Math.PI *
Math.max(0, Math.min(1, tt))))` — the paint routine re-applies the cosine
ease to its progress argument (which the driver has already eased). -/
noncomputable def drawEase (tt : ℝ) : ℝ :=
  0.5 * (1 - Real.cos (Real.pi * max 0 (min 1 tt)))

/-- Source line 132: x coordinate of the animated tip point. -/
noncomputable def drawTipX (m : Model) (tt : ℝ) : ℝ :=
  (m.startX : ℝ) + ((m.endX : ℝ) - (m.startX : ℝ)) * drawEase tt

/-- Source line 133: y coordinate of the animated tip point. -/
noncomputable def drawTipY (m : Model) (tt : ℝ) : ℝ :=
  (m.startY : ℝ) + ((m.yFinal : ℝ) - (m.startY : ℝ)) * drawEase tt

/-- Source line 204 inside `step`: the animation driver's cosine ease of the
raw time fraction. -/
noncomputable def stepEase (raw : ℝ) : ℝ :=
  0.5 * (1 - Real.cos (Real.pi * raw))

/-- Source line 155: the stroke style used for the painted line is the
model's `strokeColor`, unchanged. -/
def drawStrokeStyle (m : Model) : String := m.strokeColor

/-!
Event-loop state machine for the scheduling choreography (source lines
181–237).  Models are identified by the order in which `buildModel` runs
(`nextModel` counts builds); animation-frame callbacks are identified by
their `requestAnimationFrame` handle (`nextFrame` counts requests).  Each
pending callback is the `step` closure of one `renderOnce` call and is
permanently bound to the model that call built.  `rafRef` is the single
mutable ref `rafRef.current`, which only ever holds the most recently
requested handle.  `paints` logs, for every executed `draw`, the model the
callback painted together with the model cached in `modelRef` at that
moment.
-/
structure RafState where
  nextFrame : ℕ
  nextModel : ℕ
  pending : List (ℕ × ℕ)
  rafRef : Option ℕ
  cachedModel : Option ℕ
  paints : List (ℕ × Option ℕ)
deriving DecidableEq

/-- The initial state: nothing scheduled, no model built. -/
def initRafState : RafState :=
  { nextFrame := 0, nextModel := 0, pending := [], rafRef := none,
    cachedModel := none, paints := [] }

/-- `renderOnce` (source lines 181–212): builds a fresh model, caches it in
`modelRef`, and schedules a new `step` chain via `requestAnimationFrame`
without cancelling any frame already pending. -/
def renderOnce (s : RafState) : RafState :=
  { s with
    cachedModel := some s.nextModel,
    pending := s.pending ++ [(s.nextFrame, s.nextModel)],
    rafRef := some s.nextFrame,
    nextFrame := s.nextFrame + 1,
    nextModel := s.nextModel + 1 }

/-- The cleanup of the visibility effect (source line 217):
`if (rafRef.current) cancelAnimationFrame(rafRef.current)` — it cancels only
the handle currently stored in the ref. -/
def cancelRaf (s : RafState) : RafState :=
  match s.rafRef with
  | some f => { s with pending := s.pending.filter (fun pr => pr.1 != f) }
  | none => s

/-- The browser fires pending animation-frame callback `f` (the `step`
closure of source lines 202–209): it draws the model bound to the closure,
and, when `raw < 1` and the surface is visible (`again`), re-requests itself,
overwriting `rafRef`. -/
def fireFrame (s : RafState) (f : ℕ) (again : Bool) : RafState :=
  match List.lookup f s.pending with
  | none => s
  | some m =>
      let s1 := { s with
        pending := s.pending.filter (fun pr => pr.1 != f),
        paints := s.paints ++ [(m, s.cachedModel)] }
      if again then
        { s1 with
          pending := s1.pending ++ [(s1.nextFrame, m)],
          rafRef := some s1.nextFrame,
          nextFrame := s1.nextFrame + 1 }
      else s1

/-- External events driving the component: the first run of the visibility
effect (mount / visibility gained), a prop change (the effect's cleanup
cancels `rafRef.current`, then the effect re-runs `renderOnce`, lines
214–218), a `ResizeObserver` notification (calls `renderOnce` directly with
no cancellation, lines 224–227), and the browser firing a pending frame. -/
inductive RafEvent where
  | mount
  | propChange
  | resize
  | frame (f : ℕ) (again : Bool)

/-- One transition of the event loop. -/
def rafEventStep (s : RafState) : RafEvent → RafState
  | .mount => renderOnce s
  | .propChange => renderOnce (cancelRaf s)
  | .resize => renderOnce s
  | .frame f again => fireFrame s f again

/-- Run a whole event trace from the initial state. -/
def runEvents (evs : List RafEvent) : RafState :=
  evs.foldl rafEventStep initRafState

/-- A paint log entry is stale when the model the callback painted differs
from the model cached at that moment. -/
def hasStalePaint (s : RafState) : Bool :=
  s.paints.any (fun pr => pr.2 != some pr.1)

/-- The never-stale-paint property the specification asserts of the event
loop: along every event trace, every executed paint draws exactly the
currently cached model. -/
def neverStalePaint : Prop :=
  ∀ evs : List RafEvent, hasStalePaint (runEvents evs) = false

/-- A default configuration used for concrete instantiations: metric absent,
the component's default color, non-compact, no overrides. -/
def demoProps : SparklineProps :=
  { percent := none, color := "rgba(16,185,129,0.8)", compact := false,
    durationMs := none, lineWidthOverride := none,
    glowRadiusOverride := none, areaAlphaOverride := none }

/-- A concrete text-measurement function: every label measures 30 logical
pixels wide. -/
def mfConst : String → ℚ := fun _ => 30

theorem clampDiv1000 (x : ℚ) :
    max 0 (min 1 (max 0 (min 1000 x) / 1000)) = max 0 (min 1000 x) / 1000 := by
  have h0 : (0:ℚ) ≤ max 0 (min 1000 x) := le_max_left _ _
  have h1 : max 0 (min 1000 x) ≤ 1000 := max_le (by norm_num) (min_le_left _ _)
  have h2 : (0:ℚ) ≤ max 0 (min 1000 x) / 1000 := by positivity
  have h3 : max 0 (min 1000 x) / 1000 ≤ 1 := by
    rw [div_le_one (by norm_num)]
    exact h1
  rw [min_eq_right h3, max_eq_right h2]

/-- C6: for every metric input (any number, NaN, Infinity, or absent) and
every size, the Model Builder substitutes 100 for absent or non-finite
input, clamps to [0, 1000], and computes
`yFinal = padTop + (1 - clamp(p,0,1000)/1000) * drawableHeight` with
`drawableHeight = max(1, height - padTop - padBottom)`. -/
theorem C6_vertical_mapping (props : SparklineProps) (measureText : String → ℚ)
    (cssW cssH : ℚ) :
    (buildModel props measureText cssW cssH).yFinal
      = (if props.compact then (6:ℚ) else 10)
        + (1 - max 0 (min 1000 (rawPercentOf props.percent)) / 1000)
          * max 1 (cssH - (if props.compact then (6:ℚ) else 10)
                    - (if props.compact then (14:ℚ) else 18))
    ∧ rawPercentOf none = 100
    ∧ rawPercentOf (some JSNumber.nan) = 100
    ∧ rawPercentOf (some JSNumber.posInf) = 100
    ∧ rawPercentOf (some JSNumber.negInf) = 100 := by
  refine ⟨?_, rfl, rfl, rfl, rfl⟩
  show (if props.compact then (6:ℚ) else 10)
      + (1 - max 0 (min 1 (max 0 (min 1000 (rawPercentOf props.percent)) / 1000)))
        * max 1 (cssH - (if props.compact then (6:ℚ) else 10)
                  - (if props.compact then (14:ℚ) else 18)) = _
  rw [clampDiv1000]

theorem durationOf_mem (d : Option JSNumber) :
    200 ≤ durationOf d ∧ durationOf d ≤ 4000 := by
  match d with
  | none => exact ⟨by norm_num [durationOf], by norm_num [durationOf]⟩
  | some JSNumber.nan => exact ⟨by norm_num [durationOf], by norm_num [durationOf]⟩
  | some JSNumber.posInf => exact ⟨by norm_num [durationOf], by norm_num [durationOf]⟩
  | some JSNumber.negInf => exact ⟨by norm_num [durationOf], by norm_num [durationOf]⟩
  | some (JSNumber.fin q) =>
      refine ⟨le_max_left _ _, max_le (by norm_num) ?_⟩
      exact le_trans (min_le_left _ _) (by norm_num)

/-- C7: for every input the duration stored in the built Model lies in
[200, 4000]; a finite override is floored and clamped into that range, and
an absent or non-finite override yields the default 980. -/
theorem C7_duration_invariant (props : SparklineProps)
    (measureText : String → ℚ) (cssW cssH : ℚ) :
    (200 ≤ (buildModel props measureText cssW cssH).duration
      ∧ (buildModel props measureText cssW cssH).duration ≤ 4000)
    ∧ ((props.durationMs = none ∨ props.durationMs = some JSNumber.nan
        ∨ props.durationMs = some JSNumber.posInf
        ∨ props.durationMs = some JSNumber.negInf)
        → (buildModel props measureText cssW cssH).duration = 980)
    ∧ (∀ q : ℚ, props.durationMs = some (JSNumber.fin q)
        → (buildModel props measureText cssW cssH).duration
            = max 200 (min 4000 ((⌊q⌋ : ℤ) : ℚ))) := by
  have hd : (buildModel props measureText cssW cssH).duration
      = durationOf props.durationMs := rfl
  refine ⟨hd ▸ durationOf_mem props.durationMs, ?_, ?_⟩
  · rintro (h | h | h | h) <;> rw [hd, h] <;> rfl
  · intro q h
    rw [hd, h]
    rfl

/-- Witness for C7 at concrete inputs: override 1500 gives 1500, override 50
gives 200, override 10000 gives 4000, absent gives 980. -/
theorem C7_duration_witness :
    (buildModel { demoProps with durationMs := some (JSNumber.fin 1500) }
        mfConst 300 150).duration = 1500
    ∧ (buildModel { demoProps with durationMs := some (JSNumber.fin 50) }
        mfConst 300 150).duration = 200
    ∧ (buildModel { demoProps with durationMs := some (JSNumber.fin 10000) }
        mfConst 300 150).duration = 4000
    ∧ (buildModel demoProps mfConst 300 150).duration = 980 := by
  refine ⟨?_, ?_, ?_, ?_⟩
  · rw [(C7_duration_invariant { demoProps with durationMs := some (JSNumber.fin 1500) }
        mfConst 300 150).2.2 1500 rfl]
    decide
  · rw [(C7_duration_invariant { demoProps with durationMs := some (JSNumber.fin 50) }
        mfConst 300 150).2.2 50 rfl]
    decide
  · rw [(C7_duration_invariant { demoProps with durationMs := some (JSNumber.fin 10000) }
        mfConst 300 150).2.2 10000 rfl]
    decide
  · exact (C7_duration_invariant demoProps mfConst 300 150).2.1 (Or.inl rfl)

/-- C8: with size and style fixed, `yFinal` is monotonically non-increasing
in the metric: for `p1 < p2` both in [0, 1000], the Model built for `p2` has
`yFinal` less than or equal to the Model built for `p1`. -/
theorem C8_yFinal_monotone (props : SparklineProps)
    (measureText : String → ℚ) (cssW cssH : ℚ) (p1 p2 : ℚ)
    (h0 : 0 ≤ p1) (h12 : p1 < p2) (h2 : p2 ≤ 1000) :
    (buildModel { props with percent := some (JSNumber.fin p2) }
        measureText cssW cssH).yFinal
      ≤ (buildModel { props with percent := some (JSNumber.fin p1) }
        measureText cssW cssH).yFinal := by
  show (if props.compact then (6:ℚ) else 10)
      + (1 - max 0 (min 1 (max 0 (min 1000 p2) / 1000)))
        * max 1 (cssH - (if props.compact then (6:ℚ) else 10)
                  - (if props.compact then (14:ℚ) else 18))
    ≤ (if props.compact then (6:ℚ) else 10)
      + (1 - max 0 (min 1 (max 0 (min 1000 p1) / 1000)))
        * max 1 (cssH - (if props.compact then (6:ℚ) else 10)
                  - (if props.compact then (14:ℚ) else 18))
  have hH : (0:ℚ) ≤ max 1 (cssH - (if props.compact then (6:ℚ) else 10)
      - (if props.compact then (14:ℚ) else 18)) :=
    le_trans zero_le_one (le_max_left _ _)
  have hN : max 0 (min 1 (max 0 (min 1000 p1) / 1000))
      ≤ max 0 (min 1 (max 0 (min 1000 p2) / 1000)) := by
    gcongr
  have hmul := mul_le_mul_of_nonneg_right (sub_le_sub_left hN 1) hH
  linarith

/-- Witness for C8: metric 900 yields a strictly smaller `yFinal` (111/5)
than metric 100 (599/5) on a 300×150 surface. -/
theorem C8_yFinal_monotone_witness :
    (buildModel { demoProps with percent := some (JSNumber.fin 900) }
        mfConst 300 150).yFinal
      ≤ (buildModel { demoProps with percent := some (JSNumber.fin 100) }
        mfConst 300 150).yFinal
    ∧ (buildModel { demoProps with percent := some (JSNumber.fin 900) }
        mfConst 300 150).yFinal = 111/5
    ∧ (buildModel { demoProps with percent := some (JSNumber.fin 100) }
        mfConst 300 150).yFinal = 599/5 :=
  ⟨C8_yFinal_monotone demoProps mfConst 300 150 100 900 (by norm_num)
      (by norm_num) (by norm_num),
    by norm_num [buildModel, demoProps, mfConst, rawPercentOf, max_def, min_def],
    by norm_num [buildModel, demoProps, mfConst, rawPercentOf, max_def, min_def]⟩

theorem buildModel_endX_eq (props : SparklineProps)
    (measureText : String → ℚ) (cssW cssH : ℚ) :
    (buildModel props measureText cssW cssH).endX
      = max (buildModel props measureText cssW cssH).startX
          (cssW - (buildModel props measureText cssW cssH).padX
            - max (if props.compact then (30:ℚ) else 36)
                ((buildModel props measureText cssW cssH).labelWidth + 18)) :=
  rfl

/-- C9: with metric, labels, style flags and height fixed, growing the width
from 300 to 600 increases `endX` by exactly 300 (provided `endX` was not
floored at `startX` at width 300) while `startX`, `startY` and `yFinal` are
unchanged. -/
theorem C9_width_resize (props : SparklineProps)
    (measureText : String → ℚ) (cssH : ℚ)
    (h : (buildModel props measureText 300 cssH).startX
          < (buildModel props measureText 300 cssH).endX) :
    (buildModel props measureText 600 cssH).endX
        = (buildModel props measureText 300 cssH).endX + 300
    ∧ (buildModel props measureText 600 cssH).startX
        = (buildModel props measureText 300 cssH).startX
    ∧ (buildModel props measureText 600 cssH).startY
        = (buildModel props measureText 300 cssH).startY
    ∧ (buildModel props measureText 600 cssH).yFinal
        = (buildModel props measureText 300 cssH).yFinal := by
  refine ⟨?_, rfl, rfl, rfl⟩
  rw [buildModel_endX_eq props measureText 300 cssH] at h
  rw [buildModel_endX_eq props measureText 600 cssH,
    buildModel_endX_eq props measureText 300 cssH]
  have hsx : (buildModel props measureText 600 cssH).startX
      = (buildModel props measureText 300 cssH).startX := rfl
  have hpx : (buildModel props measureText 600 cssH).padX
      = (buildModel props measureText 300 cssH).padX := rfl
  have hlw : (buildModel props measureText 600 cssH).labelWidth
      = (buildModel props measureText 300 cssH).labelWidth := rfl
  rw [hsx, hpx, hlw]
  set S := (buildModel props measureText 300 cssH).startX with hS
  set P := (buildModel props measureText 300 cssH).padX with hP
  set G := max (if props.compact then (30:ℚ) else 36)
      ((buildModel props measureText 300 cssH).labelWidth + 18) with hG
  have hx : S < 300 - P - G := by
    rcases lt_max_iff.mp h with h1 | h1
    · exact absurd h1 (lt_irrefl _)
    · exact h1
  rw [max_eq_right hx.le, max_eq_right (by linarith : S ≤ 600 - P - G)]
  ring

/-- Witness for C9: with the default configuration on height 150, `endX`
grows from 242 to 542 when the width grows from 300 to 600, and `startX`,
`startY`, `yFinal` are unchanged. -/
theorem C9_width_resize_witness :
    (buildModel demoProps mfConst 600 150).endX
        = (buildModel demoProps mfConst 300 150).endX + 300
    ∧ (buildModel demoProps mfConst 600 150).startX
        = (buildModel demoProps mfConst 300 150).startX
    ∧ (buildModel demoProps mfConst 600 150).startY
        = (buildModel demoProps mfConst 300 150).startY
    ∧ (buildModel demoProps mfConst 600 150).yFinal
        = (buildModel demoProps mfConst 300 150).yFinal :=
  C9_width_resize demoProps mfConst 150
    (by norm_num [buildModel, demoProps, mfConst, rawPercentOf, max_def, min_def])

/-- C10: for every input color string, parseable or not, the `strokeColor`
stored in the Model — and used as the stroke style of the painted line — is
the input string verbatim; the (16,185,129) fallback triplet applies only to
the derived area-gradient colors. -/
theorem C10_stroke_verbatim (props : SparklineProps)
    (measureText : String → ℚ) (cssW cssH : ℚ) :
    (buildModel props measureText cssW cssH).strokeColor = props.color
    ∧ drawStrokeStyle (buildModel props measureText cssW cssH) = props.color
    ∧ (rgbaExec props.color.data = none →
        (buildModel props measureText cssW cssH).areaStartColor.r = 16
        ∧ (buildModel props measureText cssW cssH).areaStartColor.g = 185
        ∧ (buildModel props measureText cssW cssH).areaStartColor.b = 129
        ∧ (buildModel props measureText cssW cssH).areaEndColor.r = 16
        ∧ (buildModel props measureText cssW cssH).areaEndColor.g = 185
        ∧ (buildModel props measureText cssW cssH).areaEndColor.b = 129) := by
  refine ⟨rfl, rfl, ?_⟩
  intro h
  refine ⟨?_, ?_, ?_, ?_, ?_, ?_⟩ <;> simp [buildModel, h]

/-- Witness for C10 on the unparseable color string `"not-a-color"`: the
stroke stays verbatim while the area gradient falls back to (16,185,129). -/
theorem C10_stroke_verbatim_witness :
    (buildModel { demoProps with color := "not-a-color" } mfConst 300 150).strokeColor
        = "not-a-color"
    ∧ drawStrokeStyle (buildModel { demoProps with color := "not-a-color" } mfConst 300 150)
        = "not-a-color"
    ∧ (buildModel { demoProps with color := "not-a-color" } mfConst 300 150).areaStartColor.r
        = 16
    ∧ (buildModel { demoProps with color := "not-a-color" } mfConst 300 150).areaEndColor.b
        = 129 := by
  have h := C10_stroke_verbatim { demoProps with color := "not-a-color" } mfConst 300 150
  have hn : rgbaExec (("not-a-color" : String)).data = none := by decide
  exact ⟨h.1, h.2.1, (h.2.2 hn).1, (h.2.2 hn).2.2.2.2.2⟩

/-- C4 counterexample: the claim predicts that a non-finite `glowRadius`
override falls back to the compact-derived default (10 in non-compact mode);
the code stores the non-finite override itself. -/
theorem C4_counterexample :
    (buildModel { demoProps with glowRadiusOverride := some JSNumber.posInf }
        mfConst 300 150).glowRadius = JSNumber.posInf
    ∧ (buildModel { demoProps with glowRadiusOverride := some JSNumber.posInf }
        mfConst 300 150).glowRadius ≠ JSNumber.fin 10
    ∧ (buildModel demoProps mfConst 300 150).glowRadius = JSNumber.fin 10 := by
  refine ⟨rfl, ?_, rfl⟩
  intro h
  simpa [buildModel, demoProps] using h

/-- C4 (amended): the `lineWidth`, `glowRadius` and `areaAlpha` overrides
take precedence over the compact-derived defaults whenever they are supplied
as a number — including NaN and the infinities (`areaAlpha` is additionally
passed through `Math.max(0, Math.min(1, ·))`, which propagates NaN); only
`durationMs` requires finiteness, falling back to 980 otherwise. -/
theorem C4_override_precedence (props : SparklineProps)
    (measureText : String → ℚ) (cssW cssH : ℚ) :
    (∀ n : JSNumber, props.lineWidthOverride = some n →
        (buildModel props measureText cssW cssH).lineWidth = n)
    ∧ (props.lineWidthOverride = none →
        (buildModel props measureText cssW cssH).lineWidth
          = JSNumber.fin (if props.compact then 1.2 else 1.4))
    ∧ (∀ n : JSNumber, props.glowRadiusOverride = some n →
        (buildModel props measureText cssW cssH).glowRadius = n)
    ∧ (props.glowRadiusOverride = none →
        (buildModel props measureText cssW cssH).glowRadius
          = JSNumber.fin (if props.compact then 8 else 10))
    ∧ (∀ n : JSNumber, props.areaAlphaOverride = some n →
        (buildModel props measureText cssW cssH).areaStartColor.a
          = jsMax (JSNumber.fin 0) (jsMin (JSNumber.fin 1) n))
    ∧ (props.areaAlphaOverride = none →
        (buildModel props measureText cssW cssH).areaStartColor.a
          = JSNumber.fin (if props.compact then 0.08 else 0.12))
    ∧ ((props.durationMs = some JSNumber.nan ∨ props.durationMs = some JSNumber.posInf
        ∨ props.durationMs = some JSNumber.negInf) →
        (buildModel props measureText cssW cssH).duration = 980) := by
  refine ⟨?_, ?_, ?_, ?_, ?_, ?_, ?_⟩
  · intro n h; simp [buildModel, h]
  · intro h; simp [buildModel, h]
  · intro n h; simp [buildModel, h]
  · intro h; simp [buildModel, h]
  · intro n h; simp [buildModel, h]
  · intro h; simp [buildModel, h]
  · rintro (h | h | h) <;> simp [buildModel, durationOf, h]

/-- Witness for C4 (amended): a NaN line width is stored as NaN, the absent
override yields 1.4, an Infinity area alpha clamps to 1, and an Infinity
duration falls back to 980. -/
theorem C4_override_precedence_witness :
    (buildModel { demoProps with lineWidthOverride := some JSNumber.nan }
        mfConst 300 150).lineWidth = JSNumber.nan
    ∧ (buildModel demoProps mfConst 300 150).lineWidth = JSNumber.fin 1.4
    ∧ (buildModel { demoProps with areaAlphaOverride := some JSNumber.posInf }
        mfConst 300 150).areaStartColor.a = JSNumber.fin 1
    ∧ (buildModel { demoProps with durationMs := some JSNumber.posInf }
        mfConst 300 150).duration = 980 := by
  refine ⟨?_, ?_, ?_, ?_⟩
  · exact (C4_override_precedence { demoProps with lineWidthOverride := some JSNumber.nan }
      mfConst 300 150).1 JSNumber.nan rfl
  · exact (C4_override_precedence demoProps mfConst 300 150).2.1 rfl
  · rw [(C4_override_precedence { demoProps with areaAlphaOverride := some JSNumber.posInf }
      mfConst 300 150).2.2.2.2.1 JSNumber.posInf rfl]
    norm_num [jsMax, jsMin, max_def]
  · exact (C4_override_precedence { demoProps with durationMs := some JSNumber.posInf }
      mfConst 300 150).2.2.2.2.2.2 (Or.inr (Or.inl rfl))

set_option maxHeartbeats 1600000 in
/-- C5 counterexample: the string `"239,68,68"` is unparseable by the rgba
pattern (the fallback triplet is used for the area colors), yet it matches
the red-signature substring test, so the glow tint is the red variant — the
claim predicted the non-red variant for every unparseable string. -/
theorem C5_counterexample :
    rgbaExec (("239,68,68" : String)).data = none
    ∧ redTest (("239,68,68" : String)).data = true
    ∧ (buildModel { demoProps with color := "239,68,68" } mfConst 300 150).tipGlowColor
        = "rgba(239,68,68,0.9)"
    ∧ (buildModel { demoProps with color := "239,68,68" } mfConst 300 150).areaStartColor.r
        = 16
    ∧ (buildModel { demoProps with color := "239,68,68" } mfConst 300 150).areaStartColor.g
        = 185
    ∧ (buildModel { demoProps with color := "239,68,68" } mfConst 300 150).areaStartColor.b
        = 129 := by
  refine ⟨by decide, by decide, ?_, ?_, ?_, ?_⟩ <;> (norm_num [buildModel, demoProps]; decide)

/-- C5 (amended): r,g,b are parsed by the rgba pattern with fallback triplet
(16,185,129) on parse failure, and the glow color is the red-tinted variant
exactly when the red-signature substring test matches — the glow choice is
independent of whether the rgba pattern parsed. -/
theorem C5_color_handling (props : SparklineProps)
    (measureText : String → ℚ) (cssW cssH : ℚ) :
    (redTest props.color.data = true →
        (buildModel props measureText cssW cssH).tipGlowColor = "rgba(239,68,68,0.9)")
    ∧ (redTest props.color.data = false →
        (buildModel props measureText cssW cssH).tipGlowColor = "rgba(16,185,129,0.9)")
    ∧ (rgbaExec props.color.data = none →
        (buildModel props measureText cssW cssH).areaStartColor.r = 16
        ∧ (buildModel props measureText cssW cssH).areaStartColor.g = 185
        ∧ (buildModel props measureText cssW cssH).areaStartColor.b = 129)
    ∧ (∀ r g b : ℕ, rgbaExec props.color.data = some (r, g, b) →
        (buildModel props measureText cssW cssH).areaStartColor.r = r
        ∧ (buildModel props measureText cssW cssH).areaStartColor.g = g
        ∧ (buildModel props measureText cssW cssH).areaStartColor.b = b) := by
  refine ⟨?_, ?_, ?_, ?_⟩
  · intro h; simp [buildModel, h]
  · intro h; simp [buildModel, h]
  · intro h; refine ⟨?_, ?_, ?_⟩ <;> simp [buildModel, h]
  · intro r g b h; refine ⟨?_, ?_, ?_⟩ <;> simp [buildModel, h]

/-- Witness for C5 (amended): a red rgba string gives the red glow, the
default green rgba string gives the green glow, an unparseable string gives
the fallback triplet, and a parsed red string stores channel 239. -/
theorem C5_color_handling_witness :
    (buildModel { demoProps with color := "rgba(239, 68, 68, 0.9)" }
        mfConst 300 150).tipGlowColor = "rgba(239,68,68,0.9)"
    ∧ (buildModel demoProps mfConst 300 150).tipGlowColor = "rgba(16,185,129,0.9)"
    ∧ (buildModel { demoProps with color := "oops" } mfConst 300 150).areaStartColor.r = 16
    ∧ (buildModel { demoProps with color := "rgba(239, 68, 68, 0.9)" }
        mfConst 300 150).areaStartColor.r = 239 := by
  refine ⟨?_, ?_, ?_, ?_⟩
  · exact (C5_color_handling { demoProps with color := "rgba(239, 68, 68, 0.9)" }
      mfConst 300 150).1 (by decide)
  · exact (C5_color_handling demoProps mfConst 300 150).2.1 (by decide)
  · exact ((C5_color_handling { demoProps with color := "oops" }
      mfConst 300 150).2.2.1 (by decide)).1
  · exact ((C5_color_handling { demoProps with color := "rgba(239, 68, 68, 0.9)" }
      mfConst 300 150).2.2.2 239 68 68 (by decide)).1

/-- C3 counterexample: at progress t = 1/4 the paint routine does not place
the tip at the linear blend of t itself — line 131 re-applies the cosine
easing to the already-eased progress argument before blending. -/
theorem C3_counterexample :
    drawTipX (buildModel demoProps mfConst 300 150) (1/4)
      ≠ ((buildModel demoProps mfConst 300 150).startX : ℝ)
        + (((buildModel demoProps mfConst 300 150).endX : ℝ)
            - ((buildModel demoProps mfConst 300 150).startX : ℝ)) * (1/4) := by
  have hs : (buildModel demoProps mfConst 300 150).startX = 38 := by
    norm_num [buildModel, demoProps, mfConst, rawPercentOf, max_def, min_def]
  have he : (buildModel demoProps mfConst 300 150).endX = 242 := by
    norm_num [buildModel, demoProps, mfConst, rawPercentOf, max_def, min_def]
  rw [drawTipX, hs, he]
  intro heq
  have hclamp : max (0:ℝ) (min 1 (1/4)) = 1/4 := by norm_num
  rw [drawEase, hclamp] at heq
  have hpi : Real.pi * (1/4 : ℝ) = Real.pi / 4 := by ring
  rw [hpi, Real.cos_pi_div_four] at heq
  push_cast at heq
  have hsq2 : Real.sqrt 2 = 1 := by linarith
  have h2 : Real.sqrt 2 ^ 2 = 2 := Real.sq_sqrt (by norm_num)
  rw [hsq2] at h2
  norm_num at h2

/-- C3 (amended): the paint routine places the tip at the linear blend of
`(startX, startY) → (endX, yFinal)` evaluated at `drawEase t = 0.5 * (1 -
cos(π * clamp(t,0,1)))` — i.e. it applies the cosine easing to its progress
argument once more (the driver already passes an eased value); the easing
fixes the endpoints 0 and 1, and on [0,1] no clamping occurs. -/
theorem C3_tip_blend (m : Model) (t : ℝ) :
    drawTipX m t = (m.startX : ℝ) + ((m.endX : ℝ) - (m.startX : ℝ)) * drawEase t
    ∧ drawTipY m t = (m.startY : ℝ) + ((m.yFinal : ℝ) - (m.startY : ℝ)) * drawEase t
    ∧ drawEase 0 = 0
    ∧ drawEase 1 = 1
    ∧ (0 ≤ t → t ≤ 1 → drawEase t = 0.5 * (1 - Real.cos (Real.pi * t))) := by
  refine ⟨rfl, rfl, ?_, ?_, ?_⟩
  · rw [drawEase, min_eq_right (by norm_num : (0:ℝ) ≤ 1), max_self, mul_zero,
      Real.cos_zero]
    norm_num
  · rw [drawEase, min_self, max_eq_right (by norm_num : (0:ℝ) ≤ 1), mul_one,
      Real.cos_pi]
    norm_num
  · intro h0 h1
    rw [drawEase, min_eq_right h1, max_eq_right h0]

/-- Witness for C3 (amended): the easing fixes the endpoints, is the plain
cosine ease at t = 1/2, and at t = 0 the tip sits at the start point. -/
theorem C3_tip_blend_witness :
    drawEase 0 = 0 ∧ drawEase 1 = 1
    ∧ drawEase (1/2) = 0.5 * (1 - Real.cos (Real.pi * (1/2)))
    ∧ drawTipX (buildModel demoProps mfConst 300 150) 0
        = ((buildModel demoProps mfConst 300 150).startX : ℝ) := by
  obtain ⟨_, _, h0, h1, hc⟩ := C3_tip_blend (buildModel demoProps mfConst 300 150) (1/2)
  obtain ⟨hx0, _, _, _, _⟩ := C3_tip_blend (buildModel demoProps mfConst 300 150) 0
  exact ⟨h0, h1, hc (by norm_num) (by norm_num), by rw [hx0, h0, mul_zero, add_zero]⟩

set_option maxHeartbeats 1600000 in
/-- C1: at the failing input — metric 400, non-compact, 300×150 surface,
pointer at `endX` = 242 — the projection fraction is 1 as specified, but the
displayed hover value is 0 rather than the base metric 400: `onMouseMove`
reads `m.pValue`, a field `buildModel` never stores, so the base falls back
to 0 and the tooltip value is 0 for every model and pointer position. -/
theorem C1_hover_value_zero :
    (buildModel { demoProps with percent := some (JSNumber.fin 400) }
        mfConst 300 150).endX = 242
    ∧ hoverFraction (buildModel { demoProps with percent := some (JSNumber.fin 400) }
        mfConst 300 150) 242 = 1
    ∧ hoverPct (buildModel { demoProps with percent := some (JSNumber.fin 400) }
        mfConst 300 150) 242 = 0
    ∧ (∀ (m : Model) (x : ℚ), hoverPct m x = 0) := by
  refine ⟨?_, ?_, ?_, ?_⟩
  · norm_num [buildModel, demoProps, mfConst, rawPercentOf, max_def, min_def]
  · norm_num [hoverFraction, hoverClampedX, buildModel, demoProps, mfConst,
      rawPercentOf, max_def, min_def]
  · norm_num [hoverPct, Model.pValueProp, hoverFraction, hoverClampedX, buildModel,
      demoProps, mfConst, rawPercentOf, max_def, min_def]
  · intro m x
    norm_num [hoverPct, Model.pValueProp, max_def, min_def]

/-- C2: the claimed never-stale-paint ordering guarantee fails.  After
mount, a resize notification rebuilds the model (model 1) by calling
`renderOnce` directly, which does not cancel the pending frame of the chain
bound to model 0; when that frame fires, it paints model 0 while the cached
model is 1.  The prop-change path (effect cleanup) does cancel, so the same
trace through `propChange` is clean. -/
theorem C2_stale_paint_on_resize :
    hasStalePaint (runEvents [RafEvent.mount, RafEvent.resize, RafEvent.frame 0 true])
        = true
    ∧ (runEvents [RafEvent.mount, RafEvent.resize, RafEvent.frame 0 true]).paints
        = [(0, some 1)]
    ∧ (runEvents [RafEvent.mount, RafEvent.resize, RafEvent.frame 0 true]).cachedModel
        = some 1
    ∧ hasStalePaint (runEvents [RafEvent.mount, RafEvent.propChange, RafEvent.frame 0 true])
        = false
    ∧ ¬ neverStalePaint := by
  refine ⟨by decide, by decide, by decide, by decide, ?_⟩
  intro h
  exact absurd (h [RafEvent.mount, RafEvent.resize, RafEvent.frame 0 true]) (by decide)
